import Mathlib

/-!
# RtSourceInterpolationMatWorker

A shallow embedding of
`libraries/disp3D/engine/model/workers/rtSourceLoc/rtsourceinterpolationmatworker.cpp`.

The worker keeps the interpolation configuration (surface vertices, neighbour lists,
mapped subset, distance matrix, interpolation function, cancel distance) together with a
flag telling whether the geometry has been set.  Every slot is embedded as a function from
the worker to the worker after the call, paired with the list of effects the call performed
in program order (debug output, invocations of `GeometryInfo::scdc`, emissions of
`newInterpolationMatrixCalculated`).

`double` and `float` values are represented by rationals; the worker itself performs no
arithmetic on them.
-/

namespace DISP3DLIB

/-- Rows of an `Eigen::MatrixX3f`: one 3D position per vertex. -/
abbrev MatrixX3f := List (Rat × Rat × Rat)

/-- Number of rows of a vertex matrix (`matVertices.rows()`). -/
def MatrixX3f.rows (m : MatrixX3f) : Nat := m.length

/-- Modelled from the spec: the distance matrix produced by the geodesic solver (its
declaration in `geometryinfo.h` is not part of the sources).  Conceptually `M × N`: entry
`(i, j)` is the distance from subset vertex `i` to mesh vertex `j`, or `none` when that
vertex is unreachable within the cutoff. -/
structure DistanceMatrix where
  nVertices : Nat
  data : List (List (Option Rat))
deriving DecidableEq, Repr

/-- Entry `(i, j)` of a distance matrix; positions outside the stored data are unreachable. -/
def DistanceMatrix.coeff (D : DistanceMatrix) (i j : Nat) : Option Rat :=
  ((D.data.getD i []).getD j none)

/-- Modelled from the spec: the sparse interpolation operator (`Eigen::SparseMatrix<float>`),
`rows × cols`, stored as its (vertex, subset-index, weight) triples. -/
structure SparseMatrix where
  rows : Nat
  cols : Nat
  triplets : List (Nat × Nat × Rat)
deriving DecidableEq, Repr

/-- Coefficient `(r, c)` of a sparse matrix: the sum of the stored triples at that position. -/
def SparseMatrix.coeff (A : SparseMatrix) (r c : Nat) : Rat :=
  ((A.triplets.filter (fun t => t.1 = r ∧ t.2.1 = c)).map (fun t => t.2.2)).sum

/-- Sum of row `r` of a sparse matrix over its `cols` columns. -/
def SparseMatrix.rowSum (A : SparseMatrix) (r : Nat) : Rat :=
  ((List.range A.cols).map (fun c => A.coeff r c)).sum

namespace Interpolation

/-- The four interpolation functions a worker can point to:
`Interpolation::linear`, `::square`, `::cubic`, `::gaussian`. -/
inductive Kernel
  | linear
  | square
  | cubic
  | gaussian
deriving DecidableEq, Repr

/-- Modelled from the spec: the raw weight of a kernel as a function of (distance, cutoff);
the bodies of `Interpolation::linear`, `::square`, `::cubic` and `::gaussian` are not part of
the sources.  The gaussian weight depends on an implementation-fixed constant and is taken
as a parameter. -/
def kernelWeight (gaussianWeight : Rat → Rat → Rat) : Kernel → Rat → Rat → Rat
  | Kernel.linear, d, c => max 0 (1 - d / c)
  | Kernel.square, d, c => max 0 ((1 - d / c) ^ 2)
  | Kernel.cubic, d, c => max 0 ((1 - d / c) ^ 3)
  | Kernel.gaussian, d, c => gaussianWeight d c

/-- Modelled from the spec: the candidates of mesh vertex `j`, i.e. the subset positions
`i < m` with a finite distance `(i, j)`, each paired with its raw weight. -/
def rawWeights (weight : Rat → Rat) (D : DistanceMatrix) (m j : Nat) : List (Nat × Rat) :=
  (List.range m).filterMap (fun i => (D.coeff i j).map (fun d => (i, weight d)))

/-- Modelled from the spec: row `j` of the operator.  The raw weights are divided by their
sum; a row without candidates or with row sum zero is all-zero, and only nonzero entries
are stored. -/
def interpolationRow (weight : Rat → Rat) (D : DistanceMatrix) (m j : Nat) :
    List (Nat × Nat × Rat) :=
  let raw := rawWeights weight D m j
  let s := (raw.map Prod.snd).sum
  if s = 0 then []
  else (raw.filter (fun p => p.2 ≠ 0)).map (fun p => (j, p.1, p.2 / s))

/-- Modelled from the spec: `Interpolation::createInterpolationMat`, whose body in
`interpolation.cpp` is not part of the sources (spec section 4.2, `buildOperator`).  One row
per mesh vertex, one column per subset position in subset order. -/
def createInterpolationMat (gaussianWeight : Rat → Rat → Rat) (vecMappedSubset : List Int)
    (D : DistanceMatrix) (k : Kernel) (dCancelDist : Rat) : SparseMatrix :=
  { rows := D.nVertices
    cols := vecMappedSubset.length
    triplets := (List.range D.nVertices).flatMap
      (fun j => interpolationRow (fun d => kernelWeight gaussianWeight k d dCancelDist)
        D vecMappedSubset.length j) }

end Interpolation

open Interpolation

/-- The helper routines the worker calls; their bodies live in `geometryinfo.cpp` and
`interpolation.cpp`, outside the sources, so the worker is embedded over arbitrary ones. -/
structure Helpers where
  scdc : MatrixX3f → List (List Int) → List Int → Rat → DistanceMatrix
  createInterpolationMat : List Int → DistanceMatrix → Kernel → Rat → SparseMatrix

/-- The member `m_lInterpolationData`. -/
structure InterpolationData where
  dCancelDistance : Rat
  interpolationFunction : Kernel
  matDistanceMatrix : DistanceMatrix
  matVertices : MatrixX3f
  vecNeighborVertices : List (List Int)
  vecMappedSubset : List Int
deriving DecidableEq, Repr

/-- State of a `RtSourceInterpolationMatWorker` object. -/
structure RtSourceInterpolationMatWorker where
  m_bInterpolationInfoIsInit : Bool
  m_lInterpolationData : InterpolationData
deriving DecidableEq, Repr

/-- What a slot does besides changing the members, in program order. -/
inductive Effect
  | qDebug (msg : String)
  | scdcCalled (matVertices : MatrixX3f) (vecNeighborVertices : List (List Int))
      (vecMappedSubset : List Int) (dCancelDist : Rat)
  | newInterpolationMatrixCalculated (matInterpolationMat : SparseMatrix)
deriving DecidableEq, Repr

namespace RtSourceInterpolationMatWorker

/-- The constructor: flag false, cancel distance 0.05, cubic interpolation; the matrices and
vectors are default-constructed (empty). -/
def new : RtSourceInterpolationMatWorker :=
  { m_bInterpolationInfoIsInit := false
    m_lInterpolationData :=
      { dCancelDistance := 5 / 100
        interpolationFunction := Kernel.cubic
        matDistanceMatrix := ⟨0, []⟩
        matVertices := []
        vecNeighborVertices := []
        vecMappedSubset := [] } }

/-- The slot `calculateInterpolationOperator()`. -/
def calculateInterpolationOperator (H : Helpers) (w : RtSourceInterpolationMatWorker) :
    RtSourceInterpolationMatWorker × List Effect :=
  if !w.m_bInterpolationInfoIsInit then
    (w, [Effect.qDebug
      "RtSourceInterpolationMatWorker::calculateInterpolationOperator - Set interpolation info first."])
  else
    let d := w.m_lInterpolationData
    let d1 : InterpolationData :=
      { d with matDistanceMatrix :=
          H.scdc d.matVertices d.vecNeighborVertices d.vecMappedSubset d.dCancelDistance }
    let matInterpolationMat :=
      H.createInterpolationMat d1.vecMappedSubset d1.matDistanceMatrix
        d1.interpolationFunction d1.dCancelDistance
    ({ w with m_lInterpolationData := d1 },
      [Effect.scdcCalled d.matVertices d.vecNeighborVertices d.vecMappedSubset d.dCancelDistance,
       Effect.newInterpolationMatrixCalculated matInterpolationMat])

/-- The slot `setInterpolationFunction(sInterpolationFunction)`. -/
def setInterpolationFunction (H : Helpers) (w : RtSourceInterpolationMatWorker)
    (sInterpolationFunction : String) : RtSourceInterpolationMatWorker × List Effect :=
  let d := w.m_lInterpolationData
  let d1 : InterpolationData :=
    if sInterpolationFunction = "Linear" then
      { d with interpolationFunction := Kernel.linear }
    else if sInterpolationFunction = "Square" then
      { d with interpolationFunction := Kernel.square }
    else if sInterpolationFunction = "Cubic" then
      { d with interpolationFunction := Kernel.cubic }
    else if sInterpolationFunction = "Gaussian" then
      { d with interpolationFunction := Kernel.gaussian }
    else d
  let w1 : RtSourceInterpolationMatWorker := { w with m_lInterpolationData := d1 }
  if w1.m_bInterpolationInfoIsInit = true then
    let matInterpolationMat :=
      H.createInterpolationMat d1.vecMappedSubset d1.matDistanceMatrix
        d1.interpolationFunction d1.dCancelDistance
    (w1, [Effect.newInterpolationMatrixCalculated matInterpolationMat])
  else
    (w1, [])

/-- The slot `setCancelDistance(dCancelDist)`. -/
def setCancelDistance (H : Helpers) (w : RtSourceInterpolationMatWorker) (dCancelDist : Rat) :
    RtSourceInterpolationMatWorker × List Effect :=
  let w1 : RtSourceInterpolationMatWorker :=
    { w with m_lInterpolationData := { w.m_lInterpolationData with dCancelDistance := dCancelDist } }
  calculateInterpolationOperator H w1

/-- The slot `setInterpolationInfo(matVertices, vecNeighborVertices, vecMappedSubset)`. -/
def setInterpolationInfo (H : Helpers) (w : RtSourceInterpolationMatWorker)
    (matVertices : MatrixX3f) (vecNeighborVertices : List (List Int))
    (vecMappedSubset : List Int) : RtSourceInterpolationMatWorker × List Effect :=
  if matVertices.rows = 0 then
    (w, [Effect.qDebug
      "RtSourceInterpolationMatWorker::calculateSurfaceData - Surface data is empty. Returning ..."])
  else
    let w1 : RtSourceInterpolationMatWorker :=
      { m_bInterpolationInfoIsInit := true
        m_lInterpolationData :=
          { w.m_lInterpolationData with
            matVertices := matVertices
            vecNeighborVertices := vecNeighborVertices
            vecMappedSubset := vecMappedSubset } }
    calculateInterpolationOperator H w1

end RtSourceInterpolationMatWorker

/-- The operators a call published: the arguments of its `newInterpolationMatrixCalculated`
emissions, in order. -/
def published : List Effect → List SparseMatrix
  | [] => []
  | Effect.newInterpolationMatrixCalculated m :: es => m :: published es
  | _ :: es => published es

/-- The solver invocations a call made: the argument tuples of its `scdc` calls, in order. -/
def solverCalls : List Effect → List (MatrixX3f × List (List Int) × List Int × Rat)
  | [] => []
  | Effect.scdcCalled v n s c :: es => (v, n, s, c) :: solverCalls es
  | _ :: es => solverCalls es

/-- The full pipeline on a stored configuration: solve the distances, then build the
operator. -/
def fullRebuild (H : Helpers) (d : InterpolationData) : SparseMatrix :=
  H.createInterpolationMat d.vecMappedSubset
    (H.scdc d.matVertices d.vecNeighborVertices d.vecMappedSubset d.dCancelDistance)
    d.interpolationFunction d.dCancelDistance

/-- A call of one of the three setter slots, with its arguments. -/
inductive SetterCall
  | setInterpolationInfo (matVertices : MatrixX3f) (vecNeighborVertices : List (List Int))
      (vecMappedSubset : List Int)
  | setInterpolationFunction (sInterpolationFunction : String)
  | setCancelDistance (dCancelDist : Rat)
deriving DecidableEq, Repr

/-- Perform one setter call on a worker. -/
def SetterCall.apply (H : Helpers) (w : RtSourceInterpolationMatWorker) :
    SetterCall → RtSourceInterpolationMatWorker × List Effect
  | SetterCall.setInterpolationInfo v n s => w.setInterpolationInfo H v n s
  | SetterCall.setInterpolationFunction f => w.setInterpolationFunction H f
  | SetterCall.setCancelDistance c => w.setCancelDistance H c

/-- Perform a sequence of setter calls; the result lists, for every call in order, the
worker right after the call and the effects of that call. -/
def runSetters (H : Helpers) (w : RtSourceInterpolationMatWorker) :
    List SetterCall → List (RtSourceInterpolationMatWorker × List Effect)
  | [] => []
  | c :: cs => c.apply H w :: runSetters H (c.apply H w).1 cs

/-- A concrete pair of helper routines for evaluating the worker on examples: a solver
that reaches only the subset vertex itself (at distance 0), and the operator builder with a
gaussian weight that is constantly 1. -/
def Helpers.sample : Helpers where
  scdc := fun v _ s _ =>
    { nVertices := v.rows
      data := s.map (fun i =>
        (List.range v.rows).map (fun j => if (j : Int) = i then some 0 else none)) }
  createInterpolationMat := Interpolation.createInterpolationMat (fun _ _ => 1)

/-- A worker whose geometry has been set from a one-vertex mesh with the sample helpers. -/
def sampleWorker : RtSourceInterpolationMatWorker :=
  (RtSourceInterpolationMatWorker.new.setInterpolationInfo Helpers.sample
    [(0, 0, 0)] [[]] [0]).1

/-- The cached distance matrix agrees with the solver on the stored configuration whenever
the geometry has been set. -/
def Coherent (H : Helpers) (w : RtSourceInterpolationMatWorker) : Prop :=
  w.m_bInterpolationInfoIsInit = true →
    w.m_lInterpolationData.matDistanceMatrix =
      H.scdc w.m_lInterpolationData.matVertices w.m_lInterpolationData.vecNeighborVertices
        w.m_lInterpolationData.vecMappedSubset w.m_lInterpolationData.dCancelDistance

/-- A call of any of the four slots of the worker: one of the three setters, or
`calculateInterpolationOperator()` itself. -/
inductive SlotCall
  | setter (c : SetterCall)
  | calculateInterpolationOperator
deriving DecidableEq, Repr

/-- Perform one slot call on a worker. -/
def SlotCall.apply (H : Helpers) (w : RtSourceInterpolationMatWorker) :
    SlotCall → RtSourceInterpolationMatWorker × List Effect
  | SlotCall.setter c => c.apply H w
  | SlotCall.calculateInterpolationOperator => w.calculateInterpolationOperator H

/-- The worker reached after a sequence of slot calls. -/
def runSlots (H : Helpers) (w : RtSourceInterpolationMatWorker) :
    List SlotCall → RtSourceInterpolationMatWorker
  | [] => w
  | c :: cs => runSlots H (c.apply H w).1 cs

/-- The debug messages a call wrote, in order. -/
def debugMessages : List Effect → List String
  | [] => []
  | Effect.qDebug msg :: es => msg :: debugMessages es
  | _ :: es => debugMessages es

/-! ## Basic facts about the slots -/

open RtSourceInterpolationMatWorker

theorem calculateInterpolationOperator_of_init (H : Helpers)
    (w : RtSourceInterpolationMatWorker) (h : w.m_bInterpolationInfoIsInit = true) :
    calculateInterpolationOperator H w =
      ({ w with
          m_lInterpolationData :=
            { w.m_lInterpolationData with
              matDistanceMatrix :=
                H.scdc w.m_lInterpolationData.matVertices
                  w.m_lInterpolationData.vecNeighborVertices
                  w.m_lInterpolationData.vecMappedSubset
                  w.m_lInterpolationData.dCancelDistance } },
       [Effect.scdcCalled w.m_lInterpolationData.matVertices
          w.m_lInterpolationData.vecNeighborVertices
          w.m_lInterpolationData.vecMappedSubset w.m_lInterpolationData.dCancelDistance,
        Effect.newInterpolationMatrixCalculated (fullRebuild H w.m_lInterpolationData)]) := by
  simp [calculateInterpolationOperator, h, fullRebuild]

theorem calculateInterpolationOperator_of_not_init (H : Helpers)
    (w : RtSourceInterpolationMatWorker) (h : w.m_bInterpolationInfoIsInit = false) :
    calculateInterpolationOperator H w =
      (w, [Effect.qDebug
        "RtSourceInterpolationMatWorker::calculateInterpolationOperator - Set interpolation info first."]) := by
  simp [calculateInterpolationOperator, h]

theorem setInterpolationInfo_of_rows_ne_zero (H : Helpers)
    (w : RtSourceInterpolationMatWorker) (v : MatrixX3f) (n : List (List Int))
    (s : List Int) (hv : v.rows ≠ 0) :
    w.setInterpolationInfo H v n s =
      ({ m_bInterpolationInfoIsInit := true,
         m_lInterpolationData :=
          { w.m_lInterpolationData with
            matVertices := v,
            vecNeighborVertices := n,
            vecMappedSubset := s,
            matDistanceMatrix := H.scdc v n s w.m_lInterpolationData.dCancelDistance } },
       [Effect.scdcCalled v n s w.m_lInterpolationData.dCancelDistance,
        Effect.newInterpolationMatrixCalculated
          (H.createInterpolationMat s (H.scdc v n s w.m_lInterpolationData.dCancelDistance)
            w.m_lInterpolationData.interpolationFunction
            w.m_lInterpolationData.dCancelDistance)]) := by
  simp [setInterpolationInfo, hv, calculateInterpolationOperator]

/-! ## The setter contracts -/

/-- C1: for every worker and every call of `setInterpolationInfo` whose vertex matrix has at
least one row, afterwards the stored vertices, neighbours and subset are exactly the supplied
values (the subset as supplied), the initialized flag is true, the stored distance matrix is
`scdc` of the supplied geometry at the current cutoff, the solver ran once on exactly these
arguments, and the one published operator is `createInterpolationMat` of the subset, that
distance matrix, the current kernel and the current cutoff. -/
theorem setInterpolationInfo_stores_and_rebuilds (H : Helpers)
    (w : RtSourceInterpolationMatWorker) (v : MatrixX3f) (n : List (List Int))
    (s : List Int) (hv : 1 ≤ v.rows) :
    (w.setInterpolationInfo H v n s).1.m_lInterpolationData.matVertices = v ∧
    (w.setInterpolationInfo H v n s).1.m_lInterpolationData.vecNeighborVertices = n ∧
    (w.setInterpolationInfo H v n s).1.m_lInterpolationData.vecMappedSubset = s ∧
    (w.setInterpolationInfo H v n s).1.m_bInterpolationInfoIsInit = true ∧
    (w.setInterpolationInfo H v n s).1.m_lInterpolationData.matDistanceMatrix =
      H.scdc v n s w.m_lInterpolationData.dCancelDistance ∧
    solverCalls (w.setInterpolationInfo H v n s).2 =
      [(v, n, s, w.m_lInterpolationData.dCancelDistance)] ∧
    published (w.setInterpolationInfo H v n s).2 =
      [H.createInterpolationMat s (H.scdc v n s w.m_lInterpolationData.dCancelDistance)
        w.m_lInterpolationData.interpolationFunction
        w.m_lInterpolationData.dCancelDistance] := by
  have hv0 : v.rows ≠ 0 := by omega
  rw [setInterpolationInfo_of_rows_ne_zero H w v n s hv0]
  simp [solverCalls, published]

theorem setInterpolationInfo_stores_and_rebuilds_witness :
    1 ≤ MatrixX3f.rows [(0, 0, 0), (1, 0, 0)] ∧
    (RtSourceInterpolationMatWorker.new.setInterpolationInfo Helpers.sample
        [(0, 0, 0), (1, 0, 0)] [[1], [0]] [1, 0]).1.m_lInterpolationData.vecMappedSubset
      = [1, 0] :=
  ⟨by decide,
   (setInterpolationInfo_stores_and_rebuilds Helpers.sample RtSourceInterpolationMatWorker.new
      [(0, 0, 0), (1, 0, 0)] [[1], [0]] [1, 0] (by decide)).2.2.1⟩

/-- C2: for every worker whose geometry has been established and every kernel name,
`setInterpolationFunction` does not run the geodesic solver: no `scdc` call is made, the
result does not depend on the solver at all, the stored distance matrix is unchanged, and the
one published operator is `createInterpolationMat` of the stored subset, the stored distance
matrix, the kernel selected after the call and the stored cutoff. -/
theorem setInterpolationFunction_reuses_distance_matrix (H : Helpers)
    (w : RtSourceInterpolationMatWorker) (name : String)
    (hinit : w.m_bInterpolationInfoIsInit = true) :
    (w.setInterpolationFunction H name).1.m_lInterpolationData.matDistanceMatrix =
      w.m_lInterpolationData.matDistanceMatrix ∧
    solverCalls (w.setInterpolationFunction H name).2 = [] ∧
    (∀ scdc2, w.setInterpolationFunction ⟨scdc2, H.createInterpolationMat⟩ name =
      w.setInterpolationFunction H name) ∧
    published (w.setInterpolationFunction H name).2 =
      [H.createInterpolationMat w.m_lInterpolationData.vecMappedSubset
        w.m_lInterpolationData.matDistanceMatrix
        (w.setInterpolationFunction H name).1.m_lInterpolationData.interpolationFunction
        w.m_lInterpolationData.dCancelDistance] := by
  refine ⟨?_, ?_, ?_, ?_⟩
  · simp only [setInterpolationFunction, hinit]
    split_ifs <;> rfl
  · simp only [setInterpolationFunction, hinit]
    split_ifs <;> rfl
  · intro scdc2
    rfl
  · simp only [setInterpolationFunction, hinit]
    split_ifs <;> rfl

theorem setInterpolationFunction_reuses_distance_matrix_witness :
    sampleWorker.m_bInterpolationInfoIsInit = true ∧
    solverCalls (sampleWorker.setInterpolationFunction Helpers.sample "Linear").2 = [] :=
  ⟨rfl,
   (setInterpolationFunction_reuses_distance_matrix Helpers.sample sampleWorker "Linear"
      rfl).2.1⟩

/-- C3 (as stated, refuted): on a freshly constructed worker `setCancelDistance 1` stores the
cutoff but neither solves nor publishes, so the published list is not the claimed
one-operator list. -/
theorem setCancelDistance_fresh_no_rebuild :
    (RtSourceInterpolationMatWorker.new.setCancelDistance Helpers.sample
        1).1.m_lInterpolationData.dCancelDistance = 1 ∧
    solverCalls (RtSourceInterpolationMatWorker.new.setCancelDistance Helpers.sample 1).2
      = [] ∧
    published (RtSourceInterpolationMatWorker.new.setCancelDistance Helpers.sample 1).2
      = [] ∧
    ¬ (published (RtSourceInterpolationMatWorker.new.setCancelDistance Helpers.sample 1).2 =
        [Helpers.sample.createInterpolationMat
          RtSourceInterpolationMatWorker.new.m_lInterpolationData.vecMappedSubset
          (Helpers.sample.scdc
            RtSourceInterpolationMatWorker.new.m_lInterpolationData.matVertices
            RtSourceInterpolationMatWorker.new.m_lInterpolationData.vecNeighborVertices
            RtSourceInterpolationMatWorker.new.m_lInterpolationData.vecMappedSubset 1)
          RtSourceInterpolationMatWorker.new.m_lInterpolationData.interpolationFunction 1]) := by
  have h : RtSourceInterpolationMatWorker.new.setCancelDistance Helpers.sample 1 =
      ({ RtSourceInterpolationMatWorker.new with
          m_lInterpolationData :=
            { RtSourceInterpolationMatWorker.new.m_lInterpolationData with
              dCancelDistance := 1 } },
       [Effect.qDebug
        "RtSourceInterpolationMatWorker::calculateInterpolationOperator - Set interpolation info first."]) :=
    calculateInterpolationOperator_of_not_init _ _ rfl
  rw [h]
  simp [solverCalls, published]

/-- C3 (amended): for every worker whose geometry has been established and every cutoff `c`,
`setCancelDistance c` stores `c` and runs a full rebuild: the solver is invoked once on the
stored vertices, neighbours and subset with `c` (also when `c` is the previous cutoff), its
result becomes the stored distance matrix, and the one published operator is
`createInterpolationMat` of the stored subset, the new distance matrix, the stored kernel
and `c`. -/
theorem setCancelDistance_full_rebuild (H : Helpers) (w : RtSourceInterpolationMatWorker)
    (c : Rat) (hinit : w.m_bInterpolationInfoIsInit = true) :
    (w.setCancelDistance H c).1.m_lInterpolationData.dCancelDistance = c ∧
    solverCalls (w.setCancelDistance H c).2 =
      [(w.m_lInterpolationData.matVertices, w.m_lInterpolationData.vecNeighborVertices,
        w.m_lInterpolationData.vecMappedSubset, c)] ∧
    (w.setCancelDistance H c).1.m_lInterpolationData.matDistanceMatrix =
      H.scdc w.m_lInterpolationData.matVertices w.m_lInterpolationData.vecNeighborVertices
        w.m_lInterpolationData.vecMappedSubset c ∧
    published (w.setCancelDistance H c).2 =
      [H.createInterpolationMat w.m_lInterpolationData.vecMappedSubset
        (H.scdc w.m_lInterpolationData.matVertices w.m_lInterpolationData.vecNeighborVertices
          w.m_lInterpolationData.vecMappedSubset c)
        w.m_lInterpolationData.interpolationFunction c] := by
  simp [setCancelDistance, calculateInterpolationOperator, hinit, solverCalls, published]

theorem setCancelDistance_full_rebuild_witness :
    sampleWorker.m_bInterpolationInfoIsInit = true ∧
    solverCalls (sampleWorker.setCancelDistance Helpers.sample (5 / 100)).2 =
      [(sampleWorker.m_lInterpolationData.matVertices,
        sampleWorker.m_lInterpolationData.vecNeighborVertices,
        sampleWorker.m_lInterpolationData.vecMappedSubset, 5 / 100)] :=
  ⟨rfl, (setCancelDistance_full_rebuild Helpers.sample sampleWorker (5 / 100) rfl).2.1⟩

/-- C4: for every worker (also one whose geometry was established earlier),
`setInterpolationInfo` called with a vertex matrix of zero rows leaves the worker exactly as
it was (every stored field and the flag), only writes a debug message, does not invoke the
solver and publishes nothing. -/
theorem setInterpolationInfo_empty_noop (H : Helpers) (w : RtSourceInterpolationMatWorker)
    (v : MatrixX3f) (n : List (List Int)) (s : List Int) (hv : v.rows = 0) :
    (w.setInterpolationInfo H v n s).1 = w ∧
    solverCalls (w.setInterpolationInfo H v n s).2 = [] ∧
    published (w.setInterpolationInfo H v n s).2 = [] ∧
    (w.setInterpolationInfo H v n s).2 = [Effect.qDebug
      "RtSourceInterpolationMatWorker::calculateSurfaceData - Surface data is empty. Returning ..."] := by
  simp [setInterpolationInfo, hv, solverCalls, published]

theorem setInterpolationInfo_empty_noop_witness :
    MatrixX3f.rows [] = 0 ∧
    (sampleWorker.setInterpolationInfo Helpers.sample [] [[1]] [3]).1 = sampleWorker :=
  ⟨rfl, (setInterpolationInfo_empty_noop Helpers.sample sampleWorker [] [[1]] [3] rfl).1⟩

/-! ## Coherence of the cached distance matrix -/

theorem coherent_new (H : Helpers) : Coherent H RtSourceInterpolationMatWorker.new := by
  intro h
  exact absurd h (by decide)

theorem coherent_calculateInterpolationOperator (H : Helpers)
    (w : RtSourceInterpolationMatWorker) :
    Coherent H (calculateInterpolationOperator H w).1 := by
  cases h : w.m_bInterpolationInfoIsInit
  · rw [calculateInterpolationOperator_of_not_init H w h]
    intro h2
    rw [h] at h2
    exact absurd h2 (by decide)
  · rw [calculateInterpolationOperator_of_init H w h]
    intro _
    rfl

theorem coherent_setInterpolationFunction (H : Helpers) (w : RtSourceInterpolationMatWorker)
    (name : String) (hw : Coherent H w) : Coherent H (w.setInterpolationFunction H name).1 := by
  unfold Coherent at hw ⊢
  simp only [setInterpolationFunction]
  split_ifs <;> simpa using hw

theorem coherent_apply (H : Helpers) (w : RtSourceInterpolationMatWorker) (c : SetterCall)
    (hw : Coherent H w) : Coherent H (c.apply H w).1 := by
  cases c with
  | setInterpolationInfo v n s =>
    simp only [SetterCall.apply, setInterpolationInfo]
    split_ifs
    · exact hw
    · exact coherent_calculateInterpolationOperator H _
  | setInterpolationFunction f => exact coherent_setInterpolationFunction H w f hw
  | setCancelDistance c => exact coherent_calculateInterpolationOperator H _

theorem published_calculateInterpolationOperator (H : Helpers)
    (w : RtSourceInterpolationMatWorker) (op : SparseMatrix)
    (hop : op ∈ published (calculateInterpolationOperator H w).2) :
    op = fullRebuild H (calculateInterpolationOperator H w).1.m_lInterpolationData := by
  cases h : w.m_bInterpolationInfoIsInit
  · rw [calculateInterpolationOperator_of_not_init H w h] at hop
    simp [published] at hop
  · rw [calculateInterpolationOperator_of_init H w h] at hop ⊢
    simpa [published, fullRebuild] using hop

theorem published_apply (H : Helpers) (w : RtSourceInterpolationMatWorker) (c : SetterCall)
    (hw : Coherent H w) (op : SparseMatrix) (hop : op ∈ published (c.apply H w).2) :
    op = fullRebuild H (c.apply H w).1.m_lInterpolationData := by
  cases c with
  | setInterpolationInfo v n s =>
    simp only [SetterCall.apply, setInterpolationInfo] at hop ⊢
    split_ifs at hop ⊢
    · simp [published] at hop
    · exact published_calculateInterpolationOperator H _ op hop
  | setInterpolationFunction f =>
    have hc := coherent_setInterpolationFunction H w f hw
    cases h : w.m_bInterpolationInfoIsInit
    · simp [SetterCall.apply, setInterpolationFunction, h, published] at hop
    · have h1 : (w.setInterpolationFunction H f).1.m_bInterpolationInfoIsInit = true := by
        simp only [setInterpolationFunction]
        split_ifs <;> simpa using h
      have hd := hc h1
      simp only [SetterCall.apply] at hop ⊢
      unfold fullRebuild
      rw [← hd]
      simp only [setInterpolationFunction, h, if_true, published, List.mem_singleton] at hop ⊢
      exact hop
  | setCancelDistance c => exact published_calculateInterpolationOperator H _ op hop

theorem published_runSetters (H : Helpers) (calls : List SetterCall) :
    ∀ w : RtSourceInterpolationMatWorker, Coherent H w →
      ∀ r ∈ runSetters H w calls, ∀ op ∈ published r.2,
        op = fullRebuild H r.1.m_lInterpolationData := by
  induction calls with
  | nil =>
    intro w _ r hr
    simp [runSetters] at hr
  | cons c cs ih =>
    intro w hw r hr op hop
    simp only [runSetters, List.mem_cons] at hr
    rcases hr with rfl | hr
    · exact published_apply H w c hw op hop
    · exact ih _ (coherent_apply H w c hw) r hr op hop

/-- C5: for every sequence of setter calls applied to a freshly constructed worker, every
operator published by a call equals the full pipeline
`createInterpolationMat(subset, scdc(vertices, neighbours, subset, cutoff), kernel, cutoff)`
evaluated on the configuration stored immediately after that call; in particular the
kernel-only rebuild of `setInterpolationFunction` publishes what a full rebuild would. -/
theorem published_is_full_rebuild_of_current_configuration (H : Helpers)
    (calls : List SetterCall) (r : RtSourceInterpolationMatWorker × List Effect)
    (hr : r ∈ runSetters H RtSourceInterpolationMatWorker.new calls)
    (op : SparseMatrix) (hop : op ∈ published r.2) :
    op = H.createInterpolationMat r.1.m_lInterpolationData.vecMappedSubset
      (H.scdc r.1.m_lInterpolationData.matVertices
        r.1.m_lInterpolationData.vecNeighborVertices
        r.1.m_lInterpolationData.vecMappedSubset r.1.m_lInterpolationData.dCancelDistance)
      r.1.m_lInterpolationData.interpolationFunction
      r.1.m_lInterpolationData.dCancelDistance :=
  published_runSetters H calls _ (coherent_new H) r hr op hop

theorem published_is_full_rebuild_of_current_configuration_witness :
    (SetterCall.setInterpolationFunction "Linear").apply Helpers.sample sampleWorker ∈
      runSetters Helpers.sample RtSourceInterpolationMatWorker.new
        [SetterCall.setInterpolationInfo [(0, 0, 0)] [[]] [0],
         SetterCall.setInterpolationFunction "Linear"] ∧
    Helpers.sample.createInterpolationMat [0]
        sampleWorker.m_lInterpolationData.matDistanceMatrix Kernel.linear (5 / 100) ∈
      published
        ((SetterCall.setInterpolationFunction "Linear").apply Helpers.sample sampleWorker).2 ∧
    Helpers.sample.createInterpolationMat [0]
        sampleWorker.m_lInterpolationData.matDistanceMatrix Kernel.linear (5 / 100) =
      Helpers.sample.createInterpolationMat
        ((SetterCall.setInterpolationFunction "Linear").apply Helpers.sample
          sampleWorker).1.m_lInterpolationData.vecMappedSubset
        (Helpers.sample.scdc
          ((SetterCall.setInterpolationFunction "Linear").apply Helpers.sample
            sampleWorker).1.m_lInterpolationData.matVertices
          ((SetterCall.setInterpolationFunction "Linear").apply Helpers.sample
            sampleWorker).1.m_lInterpolationData.vecNeighborVertices
          ((SetterCall.setInterpolationFunction "Linear").apply Helpers.sample
            sampleWorker).1.m_lInterpolationData.vecMappedSubset
          ((SetterCall.setInterpolationFunction "Linear").apply Helpers.sample
            sampleWorker).1.m_lInterpolationData.dCancelDistance)
        ((SetterCall.setInterpolationFunction "Linear").apply Helpers.sample
          sampleWorker).1.m_lInterpolationData.interpolationFunction
        ((SetterCall.setInterpolationFunction "Linear").apply Helpers.sample
          sampleWorker).1.m_lInterpolationData.dCancelDistance :=
  have hr : (SetterCall.setInterpolationFunction "Linear").apply Helpers.sample sampleWorker ∈
      runSetters Helpers.sample RtSourceInterpolationMatWorker.new
        [SetterCall.setInterpolationInfo [(0, 0, 0)] [[]] [0],
         SetterCall.setInterpolationFunction "Linear"] :=
    List.mem_cons_of_mem _ (List.mem_cons_self _ _)
  have hop : Helpers.sample.createInterpolationMat [0]
        sampleWorker.m_lInterpolationData.matDistanceMatrix Kernel.linear (5 / 100) ∈
      published
        ((SetterCall.setInterpolationFunction "Linear").apply Helpers.sample sampleWorker).2 :=
    List.mem_cons_self _ _
  ⟨hr, hop,
   published_is_full_rebuild_of_current_configuration Helpers.sample
     [SetterCall.setInterpolationInfo [(0, 0, 0)] [[]] [0],
      SetterCall.setInterpolationFunction "Linear"] _ hr _ hop⟩

/-- C6 (as stated, refuted): a subset with an out-of-range index (`7` on a two-vertex mesh)
and a subset with a duplicate index (`1, 1`) are both accepted by `setInterpolationInfo`:
the subset is stored, the flag is set, the solver is invoked on it and an operator is
published. -/
theorem setInterpolationInfo_accepts_invalid_subset :
    (¬ ((0 : Int) ≤ 7 ∧ (7 : Int) < (MatrixX3f.rows [(0, 0, 0), (1, 0, 0)] : Nat)) ∧
      (RtSourceInterpolationMatWorker.new.setInterpolationInfo Helpers.sample
        [(0, 0, 0), (1, 0, 0)] [[1], [0]] [7]).1.m_lInterpolationData.vecMappedSubset = [7] ∧
      (RtSourceInterpolationMatWorker.new.setInterpolationInfo Helpers.sample
        [(0, 0, 0), (1, 0, 0)] [[1], [0]] [7]).1.m_bInterpolationInfoIsInit = true ∧
      solverCalls (RtSourceInterpolationMatWorker.new.setInterpolationInfo Helpers.sample
        [(0, 0, 0), (1, 0, 0)] [[1], [0]] [7]).2 =
          [([(0, 0, 0), (1, 0, 0)], [[1], [0]], [7], 5 / 100)] ∧
      (published (RtSourceInterpolationMatWorker.new.setInterpolationInfo Helpers.sample
        [(0, 0, 0), (1, 0, 0)] [[1], [0]] [7]).2).length = 1) ∧
    (¬ ([1, 1] : List Int).Nodup ∧
      (RtSourceInterpolationMatWorker.new.setInterpolationInfo Helpers.sample
        [(0, 0, 0), (1, 0, 0)] [[1], [0]] [1, 1]).1.m_lInterpolationData.vecMappedSubset
          = [1, 1] ∧
      (RtSourceInterpolationMatWorker.new.setInterpolationInfo Helpers.sample
        [(0, 0, 0), (1, 0, 0)] [[1], [0]] [1, 1]).1.m_bInterpolationInfoIsInit = true ∧
      solverCalls (RtSourceInterpolationMatWorker.new.setInterpolationInfo Helpers.sample
        [(0, 0, 0), (1, 0, 0)] [[1], [0]] [1, 1]).2 =
          [([(0, 0, 0), (1, 0, 0)], [[1], [0]], [1, 1], 5 / 100)] ∧
      (published (RtSourceInterpolationMatWorker.new.setInterpolationInfo Helpers.sample
        [(0, 0, 0), (1, 0, 0)] [[1], [0]] [1, 1]).2).length = 1) := by
  refine ⟨⟨by decide, rfl, rfl, rfl, rfl⟩, ⟨by decide, rfl, rfl, rfl, rfl⟩⟩

/-- C6 (amended): `setInterpolationInfo` does not validate the subset.  Called with a vertex
matrix of at least one row and a subset that contains an index outside `[0, N)` or a
duplicate index, it accepts the update like any other: the subset is stored as supplied, the
initialized flag is set, the solver is invoked on the supplied geometry and one operator is
published. -/
theorem setInterpolationInfo_no_subset_validation (H : Helpers)
    (w : RtSourceInterpolationMatWorker) (v : MatrixX3f) (n : List (List Int))
    (s : List Int) (hv : 1 ≤ v.rows)
    (_hs : (∃ i ∈ s, i < 0 ∨ (v.rows : Int) ≤ i) ∨ ¬ s.Nodup) :
    (w.setInterpolationInfo H v n s).1.m_lInterpolationData.vecMappedSubset = s ∧
    (w.setInterpolationInfo H v n s).1.m_lInterpolationData.matVertices = v ∧
    (w.setInterpolationInfo H v n s).1.m_lInterpolationData.vecNeighborVertices = n ∧
    (w.setInterpolationInfo H v n s).1.m_bInterpolationInfoIsInit = true ∧
    solverCalls (w.setInterpolationInfo H v n s).2 =
      [(v, n, s, w.m_lInterpolationData.dCancelDistance)] ∧
    (published (w.setInterpolationInfo H v n s).2).length = 1 := by
  have hv0 : v.rows ≠ 0 := by omega
  rw [setInterpolationInfo_of_rows_ne_zero H w v n s hv0]
  simp [solverCalls, published]

theorem setInterpolationInfo_no_subset_validation_witness :
    1 ≤ MatrixX3f.rows [(0, 0, 0), (1, 0, 0)] ∧
    ((∃ i ∈ ([1, 7, 1] : List Int),
        i < 0 ∨ ((MatrixX3f.rows [(0, 0, 0), (1, 0, 0)] : Nat) : Int) ≤ i) ∨
      ¬ ([1, 7, 1] : List Int).Nodup) ∧
    (sampleWorker.setInterpolationInfo Helpers.sample [(0, 0, 0), (1, 0, 0)] [[1], [0]]
      [1, 7, 1]).1.m_lInterpolationData.vecMappedSubset = [1, 7, 1] :=
  ⟨by decide, Or.inr (by decide),
   (setInterpolationInfo_no_subset_validation Helpers.sample sampleWorker
      [(0, 0, 0), (1, 0, 0)] [[1], [0]] [1, 7, 1] (by decide) (Or.inr (by decide))).1⟩

/-- C7: `setInterpolationFunction` selects the kernel by name: for every worker, whatever
its previous selection and whether or not geometry has been established, after the call with
"Linear", "Square", "Cubic" or "Gaussian" the stored kernel is respectively
`Interpolation::linear`, `::square`, `::cubic` or `::gaussian`. -/
theorem setInterpolationFunction_selects_kernel (H : Helpers)
    (w : RtSourceInterpolationMatWorker) :
    (w.setInterpolationFunction H "Linear").1.m_lInterpolationData.interpolationFunction
      = Kernel.linear ∧
    (w.setInterpolationFunction H "Square").1.m_lInterpolationData.interpolationFunction
      = Kernel.square ∧
    (w.setInterpolationFunction H "Cubic").1.m_lInterpolationData.interpolationFunction
      = Kernel.cubic ∧
    (w.setInterpolationFunction H "Gaussian").1.m_lInterpolationData.interpolationFunction
      = Kernel.gaussian := by
  refine ⟨?_, ?_, ?_, ?_⟩ <;>
    cases h : w.m_bInterpolationInfoIsInit <;>
      simp [setInterpolationFunction, h]

/-- C8: each setter mutates only its own part of the configuration.
`setInterpolationFunction` changes no stored field other than the kernel selection;
`setCancelDistance` changes no stored field other than the cutoff and the distance matrix;
`setInterpolationInfo` never changes the kernel selection or the cutoff. -/
theorem setters_frame (H : Helpers) (w : RtSourceInterpolationMatWorker) (name : String)
    (c : Rat) (v : MatrixX3f) (n : List (List Int)) (s : List Int) :
    ((w.setInterpolationFunction H name).1.m_bInterpolationInfoIsInit =
        w.m_bInterpolationInfoIsInit ∧
      (w.setInterpolationFunction H name).1.m_lInterpolationData.dCancelDistance =
        w.m_lInterpolationData.dCancelDistance ∧
      (w.setInterpolationFunction H name).1.m_lInterpolationData.matDistanceMatrix =
        w.m_lInterpolationData.matDistanceMatrix ∧
      (w.setInterpolationFunction H name).1.m_lInterpolationData.matVertices =
        w.m_lInterpolationData.matVertices ∧
      (w.setInterpolationFunction H name).1.m_lInterpolationData.vecNeighborVertices =
        w.m_lInterpolationData.vecNeighborVertices ∧
      (w.setInterpolationFunction H name).1.m_lInterpolationData.vecMappedSubset =
        w.m_lInterpolationData.vecMappedSubset) ∧
    ((w.setCancelDistance H c).1.m_bInterpolationInfoIsInit = w.m_bInterpolationInfoIsInit ∧
      (w.setCancelDistance H c).1.m_lInterpolationData.interpolationFunction =
        w.m_lInterpolationData.interpolationFunction ∧
      (w.setCancelDistance H c).1.m_lInterpolationData.matVertices =
        w.m_lInterpolationData.matVertices ∧
      (w.setCancelDistance H c).1.m_lInterpolationData.vecNeighborVertices =
        w.m_lInterpolationData.vecNeighborVertices ∧
      (w.setCancelDistance H c).1.m_lInterpolationData.vecMappedSubset =
        w.m_lInterpolationData.vecMappedSubset) ∧
    ((w.setInterpolationInfo H v n s).1.m_lInterpolationData.interpolationFunction =
        w.m_lInterpolationData.interpolationFunction ∧
      (w.setInterpolationInfo H v n s).1.m_lInterpolationData.dCancelDistance =
        w.m_lInterpolationData.dCancelDistance) := by
  refine ⟨?_, ?_, ?_⟩
  · simp only [setInterpolationFunction]
    split_ifs <;> simp
  · cases h : w.m_bInterpolationInfoIsInit <;>
      simp [setCancelDistance, calculateInterpolationOperator, h]
  · simp only [setInterpolationInfo]
    split_ifs
    · simp
    · simp [calculateInterpolationOperator]

/-! ## Rows of the built operator -/

theorem sum_range_indicator (a : Nat) (x : Rat) (m : Nat) :
    ((List.range m).map (fun c => if a = c then x else 0)).sum = if a < m then x else 0 := by
  induction m with
  | zero => simp
  | succ m ih =>
    rw [List.range_succ, List.map_append, List.sum_append, ih]
    by_cases h1 : a < m
    · have h2 : a ≠ m := by omega
      have h3 : a < m + 1 := by omega
      simp [h1, h2, h3]
    · by_cases h2 : a = m
      · subst h2
        simp
      · have h3 : ¬ a < m + 1 := by omega
        simp [h1, h2, h3]

theorem sum_columns (f : Nat × Rat → Rat) (m : Nat) (L : List (Nat × Rat))
    (hL : ∀ p ∈ L, p.1 < m) :
    ((List.range m).map
      (fun c => ((L.filter (fun p => p.1 = c)).map f).sum)).sum = (L.map f).sum := by
  induction L with
  | nil => simp
  | cons p L ih =>
    have hp : p.1 < m := hL p (List.mem_cons_self _ _)
    have ih2 := ih (fun q hq => hL q (List.mem_cons_of_mem _ hq))
    have hsplit : ∀ c, (((p :: L).filter (fun q => q.1 = c)).map f).sum =
        (if p.1 = c then f p else 0) + ((L.filter (fun q => q.1 = c)).map f).sum := by
      intro c
      by_cases h : p.1 = c <;> simp [List.filter_cons, h]
    simp only [hsplit]
    rw [List.sum_map_add, ih2, sum_range_indicator, if_pos hp, List.map_cons, List.sum_cons]

theorem sum_filter_ne_zero (L : List (Nat × Rat)) :
    ((L.filter (fun p => p.2 ≠ 0)).map Prod.snd).sum = (L.map Prod.snd).sum := by
  induction L with
  | nil => simp
  | cons p L ih =>
    simp only [ne_eq, decide_not] at ih ⊢
    by_cases h : p.2 = 0 <;> simp [List.filter_cons, h, ih]

theorem sum_map_div (L : List (Nat × Rat)) (s : Rat) :
    (L.map (fun p => p.2 / s)).sum = (L.map Prod.snd).sum / s := by
  induction L with
  | nil => simp
  | cons p L ih => simp [ih, add_div]

theorem rawWeights_lt (weight : Rat → Rat) (D : DistanceMatrix) (m j : Nat) :
    ∀ p ∈ rawWeights weight D m j, p.1 < m := by
  intro p hp
  simp only [rawWeights, List.mem_filterMap, List.mem_range] at hp
  obtain ⟨i, hi, h⟩ := hp
  cases hd : D.coeff i j with
  | none => simp [hd] at h
  | some d =>
    simp [hd] at h
    subst h
    exact hi

theorem interpolationRow_fst (weight : Rat → Rat) (D : DistanceMatrix) (m j : Nat) :
    ∀ t ∈ interpolationRow weight D m j, t.1 = j := by
  intro t ht
  unfold interpolationRow at ht
  simp only at ht
  split_ifs at ht with h
  · simp at ht
  · simp only [List.mem_map] at ht
    obtain ⟨p, _, rfl⟩ := ht
    rfl

theorem interpolationRow_filter_row (weight : Rat → Rat) (D : DistanceMatrix) (m j r c : Nat) :
    (interpolationRow weight D m j).filter (fun t => t.1 = r ∧ t.2.1 = c) =
      if j = r then (interpolationRow weight D m j).filter (fun t => t.2.1 = c) else [] := by
  split_ifs with h
  · apply List.filter_congr
    intro t ht
    have := interpolationRow_fst weight D m j t ht
    simp [this, h]
  · rw [List.filter_eq_nil_iff]
    intro t ht
    have := interpolationRow_fst weight D m j t ht
    simp only [decide_eq_true_eq, not_and]
    intro h2
    omega

theorem coeff_flatMap_range (weight : Rat → Rat) (D : DistanceMatrix) (m r c : Nat) (N : Nat) :
    ((((List.range N).flatMap (fun j => interpolationRow weight D m j)).filter
        (fun t => t.1 = r ∧ t.2.1 = c)).map (fun t => t.2.2)).sum =
      if r < N then
        (((interpolationRow weight D m r).filter (fun t => t.2.1 = c)).map (fun t => t.2.2)).sum
      else 0 := by
  induction N with
  | zero => simp
  | succ N ih =>
    rw [List.range_succ, List.flatMap_append, List.filter_append, List.map_append,
      List.sum_append, ih]
    simp only [List.flatMap_cons, List.flatMap_nil, List.append_nil]
    rw [interpolationRow_filter_row]
    by_cases h1 : r < N
    · have h2 : N ≠ r := by omega
      have h3 : r < N + 1 := by omega
      simp [h1, h2, h3]
    · by_cases h2 : N = r
      · subst h2
        simp
      · have h3 : ¬ r < N + 1 := by omega
        simp [h1, h2, h3]

theorem interpolationRow_column (weight : Rat → Rat) (D : DistanceMatrix) (m j c : Nat)
    (hs : ((rawWeights weight D m j).map Prod.snd).sum ≠ 0) :
    (((interpolationRow weight D m j).filter (fun t => t.2.1 = c)).map (fun t => t.2.2)).sum =
      ((((rawWeights weight D m j).filter (fun p => p.2 ≠ 0)).filter (fun p => p.1 = c)).map
        (fun p => p.2 / ((rawWeights weight D m j).map Prod.snd).sum)).sum := by
  unfold interpolationRow
  simp only [if_neg hs]
  rw [List.filter_map, List.map_map]
  rfl

theorem createInterpolationMat_coeff (g : Rat → Rat → Rat) (subset : List Int)
    (D : DistanceMatrix) (k : Kernel) (cut : Rat) (r c : Nat) :
    (createInterpolationMat g subset D k cut).coeff r c =
      if r < D.nVertices then
        (((interpolationRow (fun d => kernelWeight g k d cut) D subset.length r).filter
          (fun t => t.2.1 = c)).map (fun t => t.2.2)).sum
      else 0 := by
  unfold SparseMatrix.coeff createInterpolationMat
  exact coeff_flatMap_range _ D subset.length r c D.nVertices

theorem createInterpolationMat_row (g : Rat → Rat → Rat) (subset : List Int)
    (D : DistanceMatrix) (k : Kernel) (cut : Rat) (r : Nat)
    (hr : r < (createInterpolationMat g subset D k cut).rows) :
    (createInterpolationMat g subset D k cut).rowSum r = 1 ∨
      ∀ c, (createInterpolationMat g subset D k cut).coeff r c = 0 := by
  have hr2 : r < D.nVertices := hr
  by_cases hs : ((rawWeights (fun d => kernelWeight g k d cut) D subset.length r).map
      Prod.snd).sum = 0
  · right
    intro c
    rw [createInterpolationMat_coeff, if_pos hr2]
    unfold interpolationRow
    simp [hs]
  · left
    unfold SparseMatrix.rowSum
    simp only [createInterpolationMat_coeff, if_pos hr2]
    have hcols : (createInterpolationMat g subset D k cut).cols = subset.length := rfl
    rw [hcols]
    simp only [interpolationRow_column _ D subset.length r _ hs]
    rw [sum_columns _ subset.length _
      (fun p hp => rawWeights_lt _ D subset.length r p (List.mem_of_mem_filter hp)),
      sum_map_div, sum_filter_ne_zero]
    exact div_self hs

/-- C9: with the operator builder of the spec, for every solver, mesh and subset every row
of the operator published by `calculateInterpolationOperator` (the builder applied to the
solver's distance matrix, the subset, the kernel and the cutoff) either sums to 1 or is
entirely zero. -/
theorem calculateInterpolationOperator_rows_sum_to_one_or_zero (g : Rat → Rat → Rat)
    (scdc : MatrixX3f → List (List Int) → List Int → Rat → DistanceMatrix)
    (w : RtSourceInterpolationMatWorker) (op : SparseMatrix)
    (hop : op ∈ published
      (calculateInterpolationOperator ⟨scdc, Interpolation.createInterpolationMat g⟩ w).2)
    (r : Nat) (hr : r < op.rows) :
    op.rowSum r = 1 ∨ ∀ c, op.coeff r c = 0 := by
  cases h : w.m_bInterpolationInfoIsInit
  · rw [calculateInterpolationOperator_of_not_init _ w h] at hop
    simp [published] at hop
  · rw [calculateInterpolationOperator_of_init _ w h] at hop
    simp only [published, List.mem_singleton] at hop
    subst hop
    exact createInterpolationMat_row g _ _ _ _ r hr

theorem calculateInterpolationOperator_rows_sum_to_one_or_zero_witness :
    Interpolation.createInterpolationMat (fun _ _ => 1) [0, 1]
        (Helpers.sample.scdc [(0, 0, 0), (1, 0, 0), (2, 0, 0)] [[1], [0, 2], [1]] [0, 1]
          (5 / 100)) Kernel.cubic (5 / 100) ∈
      published (calculateInterpolationOperator
        ⟨Helpers.sample.scdc, Interpolation.createInterpolationMat (fun _ _ => 1)⟩
        (RtSourceInterpolationMatWorker.new.setInterpolationInfo Helpers.sample
          [(0, 0, 0), (1, 0, 0), (2, 0, 0)] [[1], [0, 2], [1]] [0, 1]).1).2 ∧
    2 < (Interpolation.createInterpolationMat (fun _ _ => 1) [0, 1]
        (Helpers.sample.scdc [(0, 0, 0), (1, 0, 0), (2, 0, 0)] [[1], [0, 2], [1]] [0, 1]
          (5 / 100)) Kernel.cubic (5 / 100)).rows ∧
    ((Interpolation.createInterpolationMat (fun _ _ => 1) [0, 1]
        (Helpers.sample.scdc [(0, 0, 0), (1, 0, 0), (2, 0, 0)] [[1], [0, 2], [1]] [0, 1]
          (5 / 100)) Kernel.cubic (5 / 100)).rowSum 2 = 1 ∨
      ∀ c, (Interpolation.createInterpolationMat (fun _ _ => 1) [0, 1]
        (Helpers.sample.scdc [(0, 0, 0), (1, 0, 0), (2, 0, 0)] [[1], [0, 2], [1]] [0, 1]
          (5 / 100)) Kernel.cubic (5 / 100)).coeff 2 c = 0) :=
  have hop : Interpolation.createInterpolationMat (fun _ _ => 1) [0, 1]
        (Helpers.sample.scdc [(0, 0, 0), (1, 0, 0), (2, 0, 0)] [[1], [0, 2], [1]] [0, 1]
          (5 / 100)) Kernel.cubic (5 / 100) ∈
      published (calculateInterpolationOperator
        ⟨Helpers.sample.scdc, Interpolation.createInterpolationMat (fun _ _ => 1)⟩
        (RtSourceInterpolationMatWorker.new.setInterpolationInfo Helpers.sample
          [(0, 0, 0), (1, 0, 0), (2, 0, 0)] [[1], [0, 2], [1]] [0, 1]).1).2 :=
    List.mem_cons_self _ _
  have hr : 2 < (Interpolation.createInterpolationMat (fun _ _ => 1) [0, 1]
        (Helpers.sample.scdc [(0, 0, 0), (1, 0, 0), (2, 0, 0)] [[1], [0, 2], [1]] [0, 1]
          (5 / 100)) Kernel.cubic (5 / 100)).rows := by decide
  ⟨hop, hr,
   calculateInterpolationOperator_rows_sum_to_one_or_zero (fun _ _ => 1) Helpers.sample.scdc
     _ _ hop 2 hr⟩

/-! ## Behaviour before the geometry is set, publication counts, invariants -/

theorem setInterpolationFunction_of_not_init (H : Helpers)
    (w : RtSourceInterpolationMatWorker) (name : String)
    (h : w.m_bInterpolationInfoIsInit = false) :
    (w.setInterpolationFunction H name).2 = [] := by
  simp [setInterpolationFunction, h]

theorem setInterpolationFunction_of_init (H : Helpers)
    (w : RtSourceInterpolationMatWorker) (name : String)
    (h : w.m_bInterpolationInfoIsInit = true) :
    (w.setInterpolationFunction H name).2 =
      [Effect.newInterpolationMatrixCalculated
        (H.createInterpolationMat w.m_lInterpolationData.vecMappedSubset
          w.m_lInterpolationData.matDistanceMatrix
          (w.setInterpolationFunction H name).1.m_lInterpolationData.interpolationFunction
          w.m_lInterpolationData.dCancelDistance)] := by
  simp only [setInterpolationFunction, h]
  split_ifs <;> rfl

theorem init_apply (H : Helpers) (w : RtSourceInterpolationMatWorker) (c : SlotCall)
    (h : w.m_bInterpolationInfoIsInit = true) :
    (c.apply H w).1.m_bInterpolationInfoIsInit = true := by
  cases c with
  | setter c =>
    cases c with
    | setInterpolationInfo v n s =>
      simp only [SlotCall.apply, SetterCall.apply, setInterpolationInfo]
      split_ifs
      · exact h
      · simp [calculateInterpolationOperator]
    | setInterpolationFunction f =>
      simp only [SlotCall.apply, SetterCall.apply, setInterpolationFunction]
      split_ifs <;> simpa using h
    | setCancelDistance c =>
      simp [SlotCall.apply, SetterCall.apply, setCancelDistance,
        calculateInterpolationOperator, h]
  | calculateInterpolationOperator =>
    simp [SlotCall.apply, calculateInterpolationOperator, h]

theorem coherent_slot_apply (H : Helpers) (w : RtSourceInterpolationMatWorker) (c : SlotCall)
    (hw : Coherent H w) : Coherent H (c.apply H w).1 := by
  cases c with
  | setter c => exact coherent_apply H w c hw
  | calculateInterpolationOperator => exact coherent_calculateInterpolationOperator H w

theorem coherent_runSlots (H : Helpers) (calls : List SlotCall) :
    ∀ w : RtSourceInterpolationMatWorker, Coherent H w → Coherent H (runSlots H w calls) := by
  induction calls with
  | nil =>
    intro w hw
    exact hw
  | cons c cs ih =>
    intro w hw
    exact ih _ (coherent_slot_apply H w c hw)

/-- C11: while no geometry has been established (initialized flag false),
`calculateInterpolationOperator` leaves the worker unchanged, does not invoke the solver and
publishes nothing; consequently `setCancelDistance` only records the new cutoff and
`setInterpolationFunction` only records the kernel it selects, neither invoking the solver
nor publishing an operator. -/
theorem uninitialized_worker_only_records (H : Helpers) (w : RtSourceInterpolationMatWorker)
    (name : String) (c : Rat) (h : w.m_bInterpolationInfoIsInit = false) :
    ((w.calculateInterpolationOperator H).1 = w ∧
      solverCalls (w.calculateInterpolationOperator H).2 = [] ∧
      published (w.calculateInterpolationOperator H).2 = []) ∧
    ((w.setCancelDistance H c).1 =
        { w with m_lInterpolationData := { w.m_lInterpolationData with dCancelDistance := c } } ∧
      solverCalls (w.setCancelDistance H c).2 = [] ∧
      published (w.setCancelDistance H c).2 = []) ∧
    ((w.setInterpolationFunction H name).1 =
        { w with
          m_lInterpolationData :=
            { w.m_lInterpolationData with
              interpolationFunction :=
                (w.setInterpolationFunction H name).1.m_lInterpolationData.interpolationFunction } } ∧
      solverCalls (w.setInterpolationFunction H name).2 = [] ∧
      published (w.setInterpolationFunction H name).2 = []) := by
  refine ⟨?_, ?_, ?_⟩
  · rw [calculateInterpolationOperator_of_not_init H w h]
    simp [solverCalls, published]
  · simp [setCancelDistance, calculateInterpolationOperator, h, solverCalls, published]
  · refine ⟨?_, ?_, ?_⟩
    · simp only [setInterpolationFunction]
      split_ifs <;> rfl
    · rw [setInterpolationFunction_of_not_init H w name h]
      rfl
    · rw [setInterpolationFunction_of_not_init H w name h]
      rfl

theorem uninitialized_worker_only_records_witness :
    RtSourceInterpolationMatWorker.new.m_bInterpolationInfoIsInit = false ∧
    published (RtSourceInterpolationMatWorker.new.setCancelDistance Helpers.sample (1 / 10)).2
      = [] ∧
    published (RtSourceInterpolationMatWorker.new.setInterpolationFunction Helpers.sample
      "Gaussian").2 = [] :=
  ⟨rfl,
   (uninitialized_worker_only_records Helpers.sample RtSourceInterpolationMatWorker.new
      "Gaussian" (1 / 10) rfl).2.1.2.2,
   (uninitialized_worker_only_records Helpers.sample RtSourceInterpolationMatWorker.new
      "Gaussian" (1 / 10) rfl).2.2.2.2⟩

/-- C12: each setter call publishes at most one operator, and exactly one if and only if a
rebuild runs: `setInterpolationInfo` publishes exactly one iff the supplied vertex matrix
has at least one row (and then the solver ran once); `setInterpolationFunction` and
`setCancelDistance` publish exactly one iff geometry has been established before the call,
and none otherwise. -/
theorem setter_publication_count (H : Helpers) (w : RtSourceInterpolationMatWorker)
    (v : MatrixX3f) (n : List (List Int)) (s : List Int) (name : String) (c : Rat) :
    ((published (w.setInterpolationInfo H v n s).2).length ≤ 1 ∧
      ((published (w.setInterpolationInfo H v n s).2).length = 1 ↔ 1 ≤ v.rows) ∧
      ((published (w.setInterpolationInfo H v n s).2).length = 0 ↔ v.rows = 0) ∧
      (solverCalls (w.setInterpolationInfo H v n s).2).length =
        (published (w.setInterpolationInfo H v n s).2).length) ∧
    ((published (w.setInterpolationFunction H name).2).length ≤ 1 ∧
      ((published (w.setInterpolationFunction H name).2).length = 1 ↔
        w.m_bInterpolationInfoIsInit = true) ∧
      ((published (w.setInterpolationFunction H name).2).length = 0 ↔
        w.m_bInterpolationInfoIsInit = false)) ∧
    ((published (w.setCancelDistance H c).2).length ≤ 1 ∧
      ((published (w.setCancelDistance H c).2).length = 1 ↔
        w.m_bInterpolationInfoIsInit = true) ∧
      ((published (w.setCancelDistance H c).2).length = 0 ↔
        w.m_bInterpolationInfoIsInit = false) ∧
      (solverCalls (w.setCancelDistance H c).2).length =
        (published (w.setCancelDistance H c).2).length) := by
  refine ⟨?_, ?_, ?_⟩
  · by_cases hv : v.rows = 0
    · simp [setInterpolationInfo, hv, solverCalls, published]
    · rw [setInterpolationInfo_of_rows_ne_zero H w v n s hv]
      have hv1 : 1 ≤ v.rows := by omega
      simp [solverCalls, published, hv, hv1]
  · cases h : w.m_bInterpolationInfoIsInit
    · rw [setInterpolationFunction_of_not_init H w name h]
      simp [published]
    · rw [setInterpolationFunction_of_init H w name h]
      simp [published]
  · cases h : w.m_bInterpolationInfoIsInit <;>
      simp [setCancelDistance, calculateInterpolationOperator, h, solverCalls, published]

/-- C13: cache coherence.  In every state reached from a freshly constructed worker by any
sequence of `setInterpolationInfo`, `setInterpolationFunction`, `setCancelDistance` and
`calculateInterpolationOperator` calls, if the initialized flag is true then the stored
distance matrix equals `scdc` of the stored vertices, neighbours, subset and cutoff; and a
call on a worker whose flag is true never leaves the flag false. -/
theorem cache_coherence_invariant (H : Helpers) (calls : List SlotCall) :
    ((runSlots H RtSourceInterpolationMatWorker.new calls).m_bInterpolationInfoIsInit = true →
      (runSlots H RtSourceInterpolationMatWorker.new calls).m_lInterpolationData.matDistanceMatrix =
        H.scdc
          (runSlots H RtSourceInterpolationMatWorker.new calls).m_lInterpolationData.matVertices
          (runSlots H RtSourceInterpolationMatWorker.new
            calls).m_lInterpolationData.vecNeighborVertices
          (runSlots H RtSourceInterpolationMatWorker.new
            calls).m_lInterpolationData.vecMappedSubset
          (runSlots H RtSourceInterpolationMatWorker.new
            calls).m_lInterpolationData.dCancelDistance) ∧
    (∀ (w : RtSourceInterpolationMatWorker) (call : SlotCall),
      w.m_bInterpolationInfoIsInit = true →
        (call.apply H w).1.m_bInterpolationInfoIsInit = true) :=
  ⟨coherent_runSlots H calls _ (coherent_new H), fun w call h => init_apply H w call h⟩

theorem cache_coherence_invariant_witness :
    (runSlots Helpers.sample RtSourceInterpolationMatWorker.new
      [SlotCall.setter (SetterCall.setInterpolationInfo [(0, 0, 0)] [[]] [0]),
       SlotCall.calculateInterpolationOperator,
       SlotCall.setter (SetterCall.setInterpolationFunction "Square"),
       SlotCall.setter (SetterCall.setCancelDistance (1 / 10))]).m_bInterpolationInfoIsInit
      = true ∧
    (runSlots Helpers.sample RtSourceInterpolationMatWorker.new
      [SlotCall.setter (SetterCall.setInterpolationInfo [(0, 0, 0)] [[]] [0]),
       SlotCall.calculateInterpolationOperator,
       SlotCall.setter (SetterCall.setInterpolationFunction "Square"),
       SlotCall.setter (SetterCall.setCancelDistance
        (1 / 10))]).m_lInterpolationData.matDistanceMatrix =
      Helpers.sample.scdc [(0, 0, 0)] [[]] [0] (1 / 10) ∧
    sampleWorker.m_bInterpolationInfoIsInit = true ∧
    ((SlotCall.setter (SetterCall.setInterpolationInfo [] [] [])).apply Helpers.sample
      sampleWorker).1.m_bInterpolationInfoIsInit = true :=
  ⟨rfl,
   (cache_coherence_invariant Helpers.sample
      [SlotCall.setter (SetterCall.setInterpolationInfo [(0, 0, 0)] [[]] [0]),
       SlotCall.calculateInterpolationOperator,
       SlotCall.setter (SetterCall.setInterpolationFunction "Square"),
       SlotCall.setter (SetterCall.setCancelDistance (1 / 10))]).1 rfl,
   rfl,
   (cache_coherence_invariant Helpers.sample []).2 sampleWorker
      (SlotCall.setter (SetterCall.setInterpolationInfo [] [] [])) rfl⟩

/-- C14: for every name other than the exact, case-sensitive strings "Linear", "Square",
"Cubic" and "Gaussian", `setInterpolationFunction` leaves the stored kernel selection (and
the whole worker) unchanged and writes no message, runs no solver, yet when geometry has
been established it still publishes one operator, built with the previously selected
kernel; without geometry it publishes nothing. -/
theorem setInterpolationFunction_unknown_name (H : Helpers)
    (w : RtSourceInterpolationMatWorker) (name : String)
    (h1 : name ≠ "Linear") (h2 : name ≠ "Square") (h3 : name ≠ "Cubic")
    (h4 : name ≠ "Gaussian") :
    (w.setInterpolationFunction H name).1.m_lInterpolationData.interpolationFunction =
      w.m_lInterpolationData.interpolationFunction ∧
    (w.setInterpolationFunction H name).1 = w ∧
    debugMessages (w.setInterpolationFunction H name).2 = [] ∧
    solverCalls (w.setInterpolationFunction H name).2 = [] ∧
    (w.m_bInterpolationInfoIsInit = true →
      published (w.setInterpolationFunction H name).2 =
        [H.createInterpolationMat w.m_lInterpolationData.vecMappedSubset
          w.m_lInterpolationData.matDistanceMatrix
          w.m_lInterpolationData.interpolationFunction
          w.m_lInterpolationData.dCancelDistance]) ∧
    (w.m_bInterpolationInfoIsInit = false →
      published (w.setInterpolationFunction H name).2 = []) := by
  obtain ⟨b, d⟩ := w
  cases b <;>
    simp [setInterpolationFunction, h1, h2, h3, h4, debugMessages, solverCalls, published]

theorem setInterpolationFunction_unknown_name_witness :
    ("linear" ≠ "Linear" ∧ "linear" ≠ "Square" ∧ "linear" ≠ "Cubic" ∧
      "linear" ≠ "Gaussian") ∧
    ("" ≠ "Linear" ∧ "" ≠ "Square" ∧ "" ≠ "Cubic" ∧ "" ≠ "Gaussian") ∧
    sampleWorker.m_bInterpolationInfoIsInit = true ∧
    (sampleWorker.setInterpolationFunction Helpers.sample "linear").1 = sampleWorker ∧
    published (sampleWorker.setInterpolationFunction Helpers.sample "linear").2 =
      [Helpers.sample.createInterpolationMat sampleWorker.m_lInterpolationData.vecMappedSubset
        sampleWorker.m_lInterpolationData.matDistanceMatrix
        sampleWorker.m_lInterpolationData.interpolationFunction
        sampleWorker.m_lInterpolationData.dCancelDistance] ∧
    (sampleWorker.setInterpolationFunction Helpers.sample "").1 = sampleWorker :=
  ⟨⟨by decide, by decide, by decide, by decide⟩,
   ⟨by decide, by decide, by decide, by decide⟩,
   rfl,
   (setInterpolationFunction_unknown_name Helpers.sample sampleWorker "linear"
      (by decide) (by decide) (by decide) (by decide)).2.1,
   (setInterpolationFunction_unknown_name Helpers.sample sampleWorker "linear"
      (by decide) (by decide) (by decide) (by decide)).2.2.2.2.1 rfl,
   (setInterpolationFunction_unknown_name Helpers.sample sampleWorker ""
      (by decide) (by decide) (by decide) (by decide)).2.1⟩

/-- C15: a freshly constructed worker has the initialized flag false, cutoff 0.05 and kernel
`Interpolation::cubic`; hence for every mesh with at least one vertex row, a
`setInterpolationInfo` made directly on it publishes exactly
`createInterpolationMat(subset, scdc(vertices, neighbours, subset, 0.05), cubic, 0.05)`. -/
theorem fresh_worker_defaults (H : Helpers) :
    RtSourceInterpolationMatWorker.new.m_bInterpolationInfoIsInit = false ∧
    RtSourceInterpolationMatWorker.new.m_lInterpolationData.dCancelDistance = 5 / 100 ∧
    RtSourceInterpolationMatWorker.new.m_lInterpolationData.interpolationFunction
      = Kernel.cubic ∧
    (∀ (v : MatrixX3f) (n : List (List Int)) (s : List Int), 1 ≤ v.rows →
      published (RtSourceInterpolationMatWorker.new.setInterpolationInfo H v n s).2 =
        [H.createInterpolationMat s (H.scdc v n s (5 / 100)) Kernel.cubic (5 / 100)]) := by
  refine ⟨rfl, rfl, rfl, ?_⟩
  intro v n s hv
  have hv0 : v.rows ≠ 0 := by omega
  rw [setInterpolationInfo_of_rows_ne_zero H _ v n s hv0]
  simp [published, RtSourceInterpolationMatWorker.new]

theorem fresh_worker_defaults_witness :
    1 ≤ MatrixX3f.rows [(0, 0, 0), (1, 0, 0)] ∧
    published (RtSourceInterpolationMatWorker.new.setInterpolationInfo Helpers.sample
        [(0, 0, 0), (1, 0, 0)] [[1], [0]] [1]).2 =
      [Helpers.sample.createInterpolationMat [1]
        (Helpers.sample.scdc [(0, 0, 0), (1, 0, 0)] [[1], [0]] [1] (5 / 100))
        Kernel.cubic (5 / 100)] :=
  ⟨by decide,
   (fresh_worker_defaults Helpers.sample).2.2.2 [(0, 0, 0), (1, 0, 0)] [[1], [0]] [1]
      (by decide)⟩

end DISP3DLIB
